import Mathlib

/-!
# Verification of the lapin AMQP client core

Shallow embedding of the connection/channel state machines, publisher-confirm
bookkeeping, content framing and the I/O loop serializer of the lapin AMQP 0-9-1
client, translated from src/channel.rs and src/io_loop.rs. Components of the
crate whose sources are not available (Acknowledgements, ReturnedMessages, the
Wait/Confirmation promises, the connection-side frame queue) are modelled from
the specification and marked as such in their doc comments.
-/

namespace Lapin

/-! ## Connection configuration and tuning (src/channel.rs, tune_connection_configuration) -/

/-- The negotiated connection configuration. In the Rust code these are a
u16 (channel_max), a u32 (frame_max) and a u16 (heartbeat) stored in the
Connection's shared configuration; all tuning operations only copy or compare
values, so plain naturals are a faithful carrier. -/
structure Configuration where
  channel_max : Nat
  frame_max   : Nat
  heartbeat   : Nat
deriving DecidableEq, Repr

/-- u16::max_value() -/
def u16_max : Nat := 65535

/-- u32::max_value() -/
def u32_max : Nat := 4294967295

/-- Translation of Channel::tune_connection_configuration: applies the server's
channel_max/frame_max/heartbeat from connection.tune to our configured values,
mutating the connection configuration in the stated order. -/
def tune_connection_configuration (cfg : Configuration)
    (channel_max frame_max heartbeat : Nat) : Configuration :=
  -- If we disable the heartbeat (0) but the server does not, follow it;
  -- if both sides want heartbeat enabled, pick the lowest value.
  let cfg1 :=
    if cfg.heartbeat = 0 ∨ (heartbeat ≠ 0 ∧ heartbeat < cfg.heartbeat) then
      { cfg with heartbeat := heartbeat }
    else cfg
  -- channel_max: 0 means we take the server's value; both non-zero: lowest.
  let cfg2 :=
    if channel_max ≠ 0 then
      if cfg1.channel_max = 0 ∨ channel_max < cfg1.channel_max then
        { cfg1 with channel_max := channel_max }
      else cfg1
    else cfg1
  let cfg3 :=
    if cfg2.channel_max = 0 then { cfg2 with channel_max := u16_max } else cfg2
  -- frame_max: same rule as channel_max.
  let cfg4 :=
    if frame_max ≠ 0 then
      if cfg3.frame_max = 0 ∨ frame_max < cfg3.frame_max then
        { cfg3 with frame_max := frame_max }
      else cfg3
    else cfg3
  if cfg4.frame_max = 0 then { cfg4 with frame_max := u32_max } else cfg4

/-- C1: after connection.tune, the negotiated channel_max and frame_max each
equal the server's value if the client's is 0, the client's value if the
server's is 0, min(client, server) if both are non-zero, and the type maximum
if both are 0; the negotiated heartbeat is the server's value if the client's
configured value is 0 or the server's non-zero value is smaller, and the
client's value otherwise. -/
theorem tune_connection_configuration_spec (cfg : Configuration)
    (cm fm hb : Nat) :
    (tune_connection_configuration cfg cm fm hb).channel_max =
      (if cfg.channel_max = 0 ∧ cm = 0 then u16_max
       else if cfg.channel_max = 0 then cm
       else if cm = 0 then cfg.channel_max
       else min cfg.channel_max cm) ∧
    (tune_connection_configuration cfg cm fm hb).frame_max =
      (if cfg.frame_max = 0 ∧ fm = 0 then u32_max
       else if cfg.frame_max = 0 then fm
       else if fm = 0 then cfg.frame_max
       else min cfg.frame_max fm) ∧
    (tune_connection_configuration cfg cm fm hb).heartbeat =
      (if cfg.heartbeat = 0 ∨ (hb ≠ 0 ∧ hb < cfg.heartbeat) then hb
       else cfg.heartbeat) := by
  refine ⟨?_, ?_, ?_⟩ <;>
    · simp only [tune_connection_configuration,
        apply_ite Configuration.channel_max, apply_ite Configuration.frame_max,
        apply_ite Configuration.heartbeat, ite_self]
      try split_ifs <;> simp_all <;> omega

/-! ## Errors and publisher-confirm acknowledgements
(src/channel.rs, on_basic_ack_received / on_basic_nack_received /
acknowledgement_error; the Acknowledgements store itself lives in
src/acknowledgement.rs which is not among the sources, so it is modelled
from the spec) -/

/-- Frame-generation errors the external codec (amq_protocol) can report to
the serializer. -/
inductive GenError where
  | bufferTooSmall (needed : Nat)
  | invalidOffset
  | customError (code : Nat)
  | notYetImplemented
deriving DecidableEq, Repr

/-- The error kinds of the crate that the embedded handlers can surface. -/
inductive ErrorKind where
  | preconditionFailed
  | invalidChannelState
  | serialisationError (e : GenError)
deriving DecidableEq, Repr

/-- Modelled from the spec: the Acknowledgements store of
src/acknowledgement.rs (not among the sources) tracks the pending
publisher-confirm delivery tags of a channel, together with the tags already
resolved: acked ones, and nacked ones which are marked as failed. -/
structure Acknowledgements where
  pending : List Nat
  acked   : List Nat
  failed  : List Nat
deriving DecidableEq, Repr

/-- Modelled from the spec: ack of a single delivery tag removes that pending
tag; an unknown tag is an error (PreconditionFailed). -/
def Acknowledgements.ack (a : Acknowledgements) (tag : Nat) :
    Except ErrorKind Acknowledgements :=
  if a.pending.contains tag then
    .ok { a with pending := a.pending.erase tag, acked := a.acked ++ [tag] }
  else .error .preconditionFailed

/-- Modelled from the spec: nack of a single delivery tag removes that pending
tag and marks it as failed; an unknown tag is an error. -/
def Acknowledgements.nack (a : Acknowledgements) (tag : Nat) :
    Except ErrorKind Acknowledgements :=
  if a.pending.contains tag then
    .ok { a with pending := a.pending.erase tag, failed := a.failed ++ [tag] }
  else .error .preconditionFailed

/-- Modelled from the spec: multiple ack with a positive tag removes every
pending tag that is at most the given tag. -/
def Acknowledgements.ack_all_before (a : Acknowledgements) (tag : Nat) :
    Acknowledgements :=
  { a with pending := a.pending.filter (fun t => decide (tag < t)),
           acked := a.acked ++ a.pending.filter (fun t => decide (t ≤ tag)) }

/-- Modelled from the spec: multiple nack with a positive tag removes every
pending tag at most the given tag, marking them as failed. -/
def Acknowledgements.nack_all_before (a : Acknowledgements) (tag : Nat) :
    Acknowledgements :=
  { a with pending := a.pending.filter (fun t => decide (tag < t)),
           failed := a.failed ++ a.pending.filter (fun t => decide (t ≤ tag)) }

/-- Modelled from the spec: multiple ack with tag 0 removes every pending
tag. -/
def Acknowledgements.ack_all_pending (a : Acknowledgements) : Acknowledgements :=
  { a with pending := [], acked := a.acked ++ a.pending }

/-- Modelled from the spec: multiple nack with tag 0 removes every pending
tag, marking them as failed. -/
def Acknowledgements.nack_all_pending (a : Acknowledgements) : Acknowledgements :=
  { a with pending := [], failed := a.failed ++ a.pending }

/-- The channel.close method frame sent by do_channel_close (the generated
sender enqueues it with the given reply code, reply text and offending
class/method ids). -/
structure ChannelCloseMethod where
  reply_code : Nat
  reply_text : String
  class_id   : Nat
  method_id  : Nat
deriving DecidableEq, Repr

/-- AMQPSoftError::PRECONDITIONFAILED.get_id() in the external protocol
definition. -/
def precondition_failed_id : Nat := 406

/-- Class id of the basic class in the AMQP 0-9-1 protocol definition. -/
def basic_class_id : Nat := 60

/-- Method id of basic.ack in the AMQP 0-9-1 protocol definition. -/
def basic_ack_method_id : Nat := 80

/-- Method id of basic.nack in the AMQP 0-9-1 protocol definition. -/
def basic_nack_method_id : Nat := 120

/-- Outcome of an ack/nack handler: the updated acknowledgements, the
channel.close frames it asked the connection to send, and the value returned
to the dispatcher. -/
structure AckOutcome where
  acknowledgements : Acknowledgements
  closes           : List ChannelCloseMethod
  result           : Except ErrorKind Unit
deriving Repr

/-- Translation of Channel::acknowledgement_error: send channel.close with
PRECONDITIONFAILED and the offending method's class and method ids, then
return the original error to the caller. -/
def acknowledgement_error (error : ErrorKind) (class_id method_id : Nat)
    (a : Acknowledgements) : AckOutcome :=
  { acknowledgements := a,
    closes := [⟨precondition_failed_id, "precondition failed", class_id, method_id⟩],
    result := .error error }

/-- Translation of Channel::on_basic_ack_received. -/
def on_basic_ack_received (confirm multiple : Bool) (delivery_tag : Nat)
    (a : Acknowledgements) : AckOutcome :=
  if confirm then
    if multiple then
      if 0 < delivery_tag then
        { acknowledgements := a.ack_all_before delivery_tag, closes := [],
          result := .ok () }
      else
        { acknowledgements := a.ack_all_pending, closes := [], result := .ok () }
    else
      match a.ack delivery_tag with
      | .ok a2 => { acknowledgements := a2, closes := [], result := .ok () }
      | .error e => acknowledgement_error e basic_class_id basic_ack_method_id a
  else { acknowledgements := a, closes := [], result := .ok () }

/-- Translation of Channel::on_basic_nack_received. -/
def on_basic_nack_received (confirm multiple : Bool) (delivery_tag : Nat)
    (a : Acknowledgements) : AckOutcome :=
  if confirm then
    if multiple then
      if 0 < delivery_tag then
        { acknowledgements := a.nack_all_before delivery_tag, closes := [],
          result := .ok () }
      else
        { acknowledgements := a.nack_all_pending, closes := [], result := .ok () }
    else
      match a.nack delivery_tag with
      | .ok a2 => { acknowledgements := a2, closes := [], result := .ok () }
      | .error e => acknowledgement_error e basic_class_id basic_nack_method_id a
  else { acknowledgements := a, closes := [], result := .ok () }

/-- C2: basic.ack in confirm mode removes the single pending tag when
multiple=false (unknown tag: error), every pending tag at most delivery_tag
when multiple=true with a positive tag, and every pending tag when
multiple=true with tag 0; basic.nack is identical except the removed tags are
marked as failed; outside confirm mode both are no-ops on the store. -/
theorem on_basic_ack_nack_received_spec (a : Acknowledgements)
    (multiple : Bool) (tag : Nat) :
    ((on_basic_ack_received false multiple tag a).acknowledgements = a ∧
     (on_basic_nack_received false multiple tag a).acknowledgements = a) ∧
    (tag ∈ a.pending →
      (on_basic_ack_received true false tag a).acknowledgements =
        { a with pending := a.pending.erase tag, acked := a.acked ++ [tag] } ∧
      (on_basic_nack_received true false tag a).acknowledgements =
        { a with pending := a.pending.erase tag, failed := a.failed ++ [tag] }) ∧
    (tag ∉ a.pending →
      (on_basic_ack_received true false tag a).result =
        .error .preconditionFailed ∧
      (on_basic_nack_received true false tag a).result =
        .error .preconditionFailed ∧
      (on_basic_ack_received true false tag a).acknowledgements = a ∧
      (on_basic_nack_received true false tag a).acknowledgements = a) ∧
    (0 < tag →
      (on_basic_ack_received true true tag a).acknowledgements =
        { a with pending := a.pending.filter (fun t => decide (tag < t)),
                 acked := a.acked ++ a.pending.filter (fun t => decide (t ≤ tag)) } ∧
      (on_basic_nack_received true true tag a).acknowledgements =
        { a with pending := a.pending.filter (fun t => decide (tag < t)),
                 failed := a.failed ++ a.pending.filter (fun t => decide (t ≤ tag)) }) ∧
    ((on_basic_ack_received true true 0 a).acknowledgements =
        { a with pending := [], acked := a.acked ++ a.pending } ∧
     (on_basic_nack_received true true 0 a).acknowledgements =
        { a with pending := [], failed := a.failed ++ a.pending }) := by
  refine ⟨⟨rfl, rfl⟩, ?_, ?_, ?_, ?_, ?_⟩
  · intro h
    simp [on_basic_ack_received, on_basic_nack_received,
      Acknowledgements.ack, Acknowledgements.nack, h]
  · intro h
    simp [on_basic_ack_received, on_basic_nack_received,
      Acknowledgements.ack, Acknowledgements.nack, h, acknowledgement_error]
  · intro h
    simp [on_basic_ack_received, on_basic_nack_received, h,
      Acknowledgements.ack_all_before, Acknowledgements.nack_all_before]
  · simp [on_basic_ack_received, on_basic_nack_received,
      Acknowledgements.ack_all_pending, Acknowledgements.nack_all_pending]
  · simp [on_basic_ack_received, on_basic_nack_received,
      Acknowledgements.ack_all_pending, Acknowledgements.nack_all_pending]

/-- Witness for C2 at two concrete stores: tag 2 pending in one, absent from
the other. -/
theorem on_basic_ack_nack_received_spec_witness :
    (on_basic_ack_received true false 2 ⟨[1, 2, 3], [], []⟩).acknowledgements =
      ⟨[1, 3], [2], []⟩ ∧
    (on_basic_ack_received true false 7 ⟨[1, 2, 3], [], []⟩).result =
      .error .preconditionFailed ∧
    (on_basic_ack_received true true 2 ⟨[1, 2, 3], [], []⟩).acknowledgements =
      ⟨[3], [1, 2], []⟩ := by
  refine ⟨?_, ?_, ?_⟩
  · have h := ((on_basic_ack_nack_received_spec ⟨[1, 2, 3], [], []⟩ false 2).2.1
      (by decide)).1
    simpa using h
  · exact ((on_basic_ack_nack_received_spec ⟨[1, 2, 3], [], []⟩ false 7).2.2.1
      (by decide)).1
  · have h := ((on_basic_ack_nack_received_spec ⟨[1, 2, 3], [], []⟩ true 2).2.2.2.1
      (by decide)).1
    simpa using h

/-- C3: a basic.ack or basic.nack in confirm mode whose single delivery tag is
not pending sends channel.close with reply code 406 (PRECONDITION_FAILED)
carrying the offending method's class and method ids, and returns the matching
error to the caller. -/
theorem acknowledgement_error_close_spec (a : Acknowledgements) (tag : Nat)
    (h : tag ∉ a.pending) :
    on_basic_ack_received true false tag a =
      { acknowledgements := a,
        closes := [⟨precondition_failed_id, "precondition failed",
                    basic_class_id, basic_ack_method_id⟩],
        result := .error .preconditionFailed } ∧
    on_basic_nack_received true false tag a =
      { acknowledgements := a,
        closes := [⟨precondition_failed_id, "precondition failed",
                    basic_class_id, basic_nack_method_id⟩],
        result := .error .preconditionFailed } := by
  constructor <;>
    simp [on_basic_ack_received, on_basic_nack_received,
      Acknowledgements.ack, Acknowledgements.nack, h, acknowledgement_error]

/-- Witness for C3: acking unknown tag 4 with only tags 1 and 2 pending. -/
theorem acknowledgement_error_close_spec_witness :
    on_basic_ack_received true false 4 ⟨[1, 2], [], []⟩ =
      { acknowledgements := ⟨[1, 2], [], []⟩,
        closes := [⟨406, "precondition failed", 60, 80⟩],
        result := .error .preconditionFailed } ∧
    on_basic_nack_received true false 4 ⟨[1, 2], [], []⟩ =
      { acknowledgements := ⟨[1, 2], [], []⟩,
        closes := [⟨406, "precondition failed", 60, 120⟩],
        result := .error .preconditionFailed } :=
  acknowledgement_error_close_spec ⟨[1, 2], [], []⟩ 4 (by decide)

/-! ## wait_for_confirms (src/channel.rs)
The Wait/Confirmation promises and the ReturnedMessages store live in files
not among the sources (src/wait.rs, src/confirmation.rs,
src/returned_messages.rs); their observable behaviour is modelled from the
spec. -/

/-- A message bounced back by the broker via basic.return, as built in
Channel::on_basic_return_received. -/
structure BasicReturnMessage where
  exchange    : String
  routing_key : String
  reply_code  : Nat
  reply_text  : String
deriving DecidableEq, Repr

/-- Modelled from the spec: ReturnedMessages.drain returns the returned
messages accumulated since the last drain and empties the buffer; the buffer
is modelled as the list of accumulated messages, so drain yields the whole
list. -/
def ReturnedMessages.drain (buffer : List BasicReturnMessage) :
    List BasicReturnMessage := buffer

/-- Modelled from the spec: Acknowledgements::get_last_pending returns the
Wait associated with the last currently-pending delivery tag, or None when no
tag is pending; modelled as that tag. -/
def Acknowledgements.get_last_pending (a : Acknowledgements) : Option Nat :=
  a.pending.getLast?

/-- The Confirmation a caller gets from wait_for_confirms. waitOnTag tag is a
Wait that resolves when that pending tag is acked or nacked, whose value is
the drain of the returned-messages buffer at resolution time (the map closure
of the Rust code); finished v is an already-resolved Wait holding v. -/
inductive Confirmation where
  | waitOnTag (tag : Nat)
  | finished (value : List BasicReturnMessage)
deriving DecidableEq, Repr

/-- Translation of Channel::wait_for_confirms: if some tag is pending, return
the Wait of the last pending tag mapped through drain; otherwise finish a
fresh Wait with Vec::default() immediately. -/
def wait_for_confirms (a : Acknowledgements) : Confirmation :=
  match a.get_last_pending with
  | some tag => .waitOnTag tag
  | none => .finished []

/-- The value a Confirmation resolves with, given the returned-messages
buffer at resolution time: a pending wait yields the drain of that buffer, an
already-finished wait yields its stored value. -/
def Confirmation.resolveValue (c : Confirmation)
    (bufferAtResolution : List BasicReturnMessage) :
    List BasicReturnMessage :=
  match c with
  | .waitOnTag _ => ReturnedMessages.drain bufferAtResolution
  | .finished v => v

/-- C6 counterexample: with no pending tags and a non-empty returned-messages
buffer, wait_for_confirms resolves with the empty list, not with the drained
buffer as the claim states. -/
theorem wait_for_confirms_counterexample :
    Confirmation.resolveValue (wait_for_confirms ⟨[], [], []⟩)
        [⟨"ex", "rk", 312, "NO_ROUTE"⟩] = [] ∧
    ([] : List BasicReturnMessage) ≠
      ReturnedMessages.drain [⟨"ex", "rk", 312, "NO_ROUTE"⟩] := by
  constructor
  · rfl
  · simp [ReturnedMessages.drain]

/-- C6 (amended): when at least one confirm tag is pending, wait_for_confirms
returns a Wait on the last currently-pending tag that resolves with the
drained returned messages; when no tag is pending it resolves immediately
with the empty list (the returned-messages buffer is not drained). -/
theorem wait_for_confirms_spec (a : Acknowledgements)
    (buffer : List BasicReturnMessage) :
    (∀ tag, a.pending.getLast? = some tag →
      wait_for_confirms a = .waitOnTag tag ∧
      Confirmation.resolveValue (wait_for_confirms a) buffer =
        ReturnedMessages.drain buffer) ∧
    (a.pending.getLast? = none →
      wait_for_confirms a = .finished [] ∧
      Confirmation.resolveValue (wait_for_confirms a) buffer = []) := by
  constructor
  · intro tag h
    constructor <;>
      simp [wait_for_confirms, Acknowledgements.get_last_pending, h,
        Confirmation.resolveValue]
  · intro h
    constructor <;>
      simp [wait_for_confirms, Acknowledgements.get_last_pending, h,
        Confirmation.resolveValue]

/-- Witness for C6 (amended) at a store with pending tags 1, 2 and at an
empty store. -/
theorem wait_for_confirms_spec_witness :
    wait_for_confirms ⟨[1, 2], [], []⟩ = .waitOnTag 2 ∧
    Confirmation.resolveValue (wait_for_confirms ⟨[1, 2], [], []⟩)
        [⟨"e", "r", 312, "NO_ROUTE"⟩] = [⟨"e", "r", 312, "NO_ROUTE"⟩] ∧
    wait_for_confirms ⟨[], [3], []⟩ = .finished [] := by
  refine ⟨?_, ?_, ?_⟩
  · exact ((wait_for_confirms_spec ⟨[1, 2], [], []⟩ []).1 2 (by decide)).1
  · exact ((wait_for_confirms_spec ⟨[1, 2], [], []⟩
      [⟨"e", "r", 312, "NO_ROUTE"⟩]).1 2 (by decide)).2
  · exact ((wait_for_confirms_spec ⟨[], [3], []⟩ []).2 (by decide)).1

/-! ## Channel content-receive state machine
(src/channel.rs, handle_content_header_frame / handle_body_frame / set_error;
the ChannelState enum lives in src/channel_status.rs which is not among the
sources, its variants are taken from the spec) -/

/-- Content properties attached to a content header frame. The BasicProperties
type comes from the external protocol definition; the handlers only pass it
through, so a single abstract field is a faithful carrier. -/
structure BasicProperties where
  flags : Nat
deriving DecidableEq, Repr

/-- Default BasicProperties. -/
def BasicProperties.default : BasicProperties := ⟨0⟩

/-- The channel states of src/channel_status.rs (variants from the spec;
the payloads of WillReceiveContent and ReceivingContent are those used by
src/channel.rs). -/
inductive ChannelState where
  | initial
  | connected
  | sendingContent
  | willReceiveContent (queue_name : Option String)
      (request_id_or_consumer_tag : Option String)
  | receivingContent (queue_name : Option String)
      (request_id_or_consumer_tag : Option String) (remaining : Nat)
  | closing
  | closed
  | error
deriving DecidableEq, Repr

/-- Observable effects of the content handlers on the in-flight delivery.
setDeliveryProperties records the header's properties (set_delivery_properties
on ReturnedMessages, or the header hand-off to Queues, modelled from the
spec); appendBody appends a body chunk; deliveryComplete emits the assembled
delivery (new_delivery_complete, or the Queues completion, modelled from the
spec: a delivery completes when the received bytes reach the header's size). -/
inductive ContentEvent where
  | setDeliveryProperties (props : BasicProperties)
  | appendBody (payload : List UInt8)
  | deliveryComplete
deriving DecidableEq, Repr

/-- Result of one content handler call: the new channel state, the delivery
events it produced, whether set_error removed the channel from the connection,
and the value returned to the frame dispatcher. -/
structure HandlerOutcome where
  state                 : ChannelState
  events                : List ContentEvent
  removedFromConnection : Bool
  result                : Except ErrorKind Unit
deriving Repr

/-- Translation of Channel::set_error: set the state to Error and remove the
channel from the connection (Connection::remove_channel is not among the
sources; modelled from the spec as succeeding, so the handler returns Ok). -/
def set_error_outcome : HandlerOutcome :=
  { state := .error, events := [], removedFromConnection := true,
    result := .ok () }

/-- Translation of Channel::handle_content_header_frame. In the
WillReceiveContent state, a header of size 0 completes the delivery and
returns to Connected, a positive size moves to ReceivingContent with the same
routing context; in any other state, set_error. -/
def handle_content_header_frame (st : ChannelState) (size : Nat)
    (props : BasicProperties) : HandlerOutcome :=
  match st with
  | .willReceiveContent queue_name tag =>
    { state :=
        if 0 < size then .receivingContent queue_name tag size else .connected,
      events :=
        .setDeliveryProperties props ::
          (if size = 0 then [.deliveryComplete] else []),
      removedFromConnection := false,
      result := .ok () }
  | _ => set_error_outcome

/-- Translation of Channel::handle_body_frame. In the ReceivingContent state,
a body frame no larger than the remaining size is appended, completing the
delivery and returning to Connected when it is exactly the remaining size; a
larger frame, or any other state, is set_error. -/
def handle_body_frame (st : ChannelState) (payload : List UInt8) :
    HandlerOutcome :=
  match st with
  | .receivingContent queue_name tag remaining =>
    if payload.length ≤ remaining then
      { state :=
          if remaining = payload.length then .connected
          else .receivingContent queue_name tag (remaining - payload.length),
        events :=
          .appendBody payload ::
            (if remaining = payload.length then [.deliveryComplete] else []),
        removedFromConnection := false,
        result := .ok () }
    else set_error_outcome
  | _ => set_error_outcome

/-- Processing of a sequence of body frames: fold handle_body_frame over the
frames, accumulating the emitted events. -/
def runBodyFrames : ChannelState → List (List UInt8) →
    ChannelState × List ContentEvent
  | st, [] => (st, [])
  | st, p :: rest =>
    let out := handle_body_frame st p
    let next := runBodyFrames out.state rest
    (next.1, out.events ++ next.2)

/-- Total size of a list of body frames. -/
def bodySizeSum (frames : List (List UInt8)) : Nat :=
  (frames.map List.length).sum

/-- C4: a content header of declared size S received in WillReceiveContent
completes the delivery and returns to Connected when S = 0, and moves to
ReceivingContent with the same routing context and remaining size S when
S > 0; the handler reports no error. -/
theorem handle_content_header_frame_spec (queue_name tag : Option String)
    (size : Nat) (props : BasicProperties) :
    (size = 0 →
      (handle_content_header_frame (.willReceiveContent queue_name tag) size
          props).state = .connected ∧
      ContentEvent.deliveryComplete ∈
        (handle_content_header_frame (.willReceiveContent queue_name tag) size
          props).events) ∧
    (0 < size →
      (handle_content_header_frame (.willReceiveContent queue_name tag) size
          props).state = .receivingContent queue_name tag size ∧
      ContentEvent.deliveryComplete ∉
        (handle_content_header_frame (.willReceiveContent queue_name tag) size
          props).events) ∧
    (handle_content_header_frame (.willReceiveContent queue_name tag) size
        props).result = .ok () := by
  refine ⟨?_, ?_, rfl⟩
  · intro h
    subst h
    simp [handle_content_header_frame]
  · intro h
    constructor <;> simp [handle_content_header_frame, h, Nat.pos_iff_ne_zero.mp h]

/-- Witness for C4 at sizes 0 and 5. -/
theorem handle_content_header_frame_spec_witness :
    (handle_content_header_frame
        (.willReceiveContent (some "q") none) 0 ⟨0⟩).state = .connected ∧
    (handle_content_header_frame
        (.willReceiveContent (some "q") none) 5 ⟨0⟩).state =
      .receivingContent (some "q") none 5 := by
  constructor
  · exact ((handle_content_header_frame_spec (some "q") none 0 ⟨0⟩).1 rfl).1
  · exact ((handle_content_header_frame_spec (some "q") none 5 ⟨0⟩).2.1
      (by decide)).1

/-- Number of deliveryComplete events in an event list. -/
def completeCount (evs : List ContentEvent) : Nat :=
  evs.countP (fun e => decide (e = ContentEvent.deliveryComplete))

theorem completeCount_append (a b : List ContentEvent) :
    completeCount (a ++ b) = completeCount a + completeCount b := by
  simp [completeCount, List.countP_append]

theorem bodySizeSum_cons (p : List UInt8) (rest : List (List UInt8)) :
    bodySizeSum (p :: rest) = p.length + bodySizeSum rest := by
  simp [bodySizeSum]

/-- Folding body frames from ReceivingContent with remaining size S: as long
as every proper prefix of the frames sums below S, the run completes the
delivery exactly when the total size reaches S, and stays in ReceivingContent
with the missing bytes otherwise. -/
theorem runBodyFrames_progress (queue_name tag : Option String) :
    ∀ (frames : List (List UInt8)) (S : Nat), 0 < S →
    (∀ k, k < frames.length → bodySizeSum (frames.take k) < S) →
    (bodySizeSum frames = S →
      (runBodyFrames (.receivingContent queue_name tag S) frames).1 =
        .connected ∧
      completeCount
        (runBodyFrames (.receivingContent queue_name tag S) frames).2 = 1) ∧
    (bodySizeSum frames < S →
      (runBodyFrames (.receivingContent queue_name tag S) frames).1 =
        .receivingContent queue_name tag (S - bodySizeSum frames) ∧
      completeCount
        (runBodyFrames (.receivingContent queue_name tag S) frames).2 = 0) := by
  intro frames
  induction frames with
  | nil =>
    intro S hS _
    constructor
    · intro hsum
      exact absurd hsum.symm (by simp [bodySizeSum]; omega)
    · intro _
      simp [runBodyFrames, completeCount, bodySizeSum]
  | cons p rest ih =>
    intro S hS hpre
    by_cases hrest : rest = []
    · subst hrest
      constructor
      · intro hsum
        rw [bodySizeSum_cons] at hsum
        simp [bodySizeSum] at hsum
        subst hsum
        simp [runBodyFrames, handle_body_frame, completeCount]
      · intro hsum
        rw [bodySizeSum_cons] at hsum
        simp [bodySizeSum] at hsum ⊢
        have hlt : p.length < S := by omega
        simp [runBodyFrames, handle_body_frame, Nat.le_of_lt hlt,
          Nat.ne_of_gt hlt, completeCount]
    · have hlp : p.length < S := by
        have h1 := hpre 1 (by
          cases rest with
          | nil => exact absurd rfl hrest
          | cons q qs => simp)
        simpa [bodySizeSum] using h1
      have hstep :
          handle_body_frame (.receivingContent queue_name tag S) p =
            { state := .receivingContent queue_name tag (S - p.length),
              events := [.appendBody p],
              removedFromConnection := false, result := .ok () } := by
        simp [handle_body_frame, Nat.le_of_lt hlp, Nat.ne_of_gt hlp]
      have hpre2 : ∀ k, k < rest.length →
          bodySizeSum (rest.take k) < S - p.length := by
        intro k hk
        have := hpre (k + 1) (by simpa using hk)
        simp [bodySizeSum] at this ⊢
        omega
      have ih2 := ih (S - p.length) (by omega) hpre2
      constructor
      · intro hsum
        rw [bodySizeSum_cons] at hsum
        have hr : bodySizeSum rest = S - p.length := by omega
        obtain ⟨hfin, hcnt⟩ := ih2.1 hr
        constructor
        · simp only [runBodyFrames, hstep]
          exact hfin
        · simp only [runBodyFrames, hstep, completeCount_append]
          rw [hcnt]
          simp [completeCount]
      · intro hsum
        rw [bodySizeSum_cons] at hsum
        have hr : bodySizeSum rest < S - p.length := by omega
        obtain ⟨hfin, hcnt⟩ := ih2.2 hr
        constructor
        · simp only [runBodyFrames, hstep]
          rw [bodySizeSum_cons, hfin, Nat.sub_sub]
        · simp only [runBodyFrames, hstep, completeCount_append]
          rw [hcnt]
          simp [completeCount]

/-- C5: a body frame of size b in ReceivingContent with remaining bytes r
sets the channel to Error when b > r, otherwise appends the bytes, completing
the delivery and returning to Connected when b = r and staying in
ReceivingContent with r - b bytes left when b < r; consequently a run of body
frames whose proper prefixes stay below the header size S completes the
delivery exactly when the total size equals S. -/
theorem handle_body_frame_spec (queue_name tag : Option String) :
    (∀ (remaining : Nat) (payload : List UInt8),
      (remaining < payload.length →
        handle_body_frame (.receivingContent queue_name tag remaining)
          payload = set_error_outcome) ∧
      (payload.length ≤ remaining →
        (handle_body_frame (.receivingContent queue_name tag remaining)
            payload).events =
          .appendBody payload ::
            (if remaining = payload.length then [.deliveryComplete] else []) ∧
        (payload.length = remaining →
          (handle_body_frame (.receivingContent queue_name tag remaining)
              payload).state = .connected) ∧
        (payload.length < remaining →
          (handle_body_frame (.receivingContent queue_name tag remaining)
              payload).state =
            .receivingContent queue_name tag (remaining - payload.length)))) ∧
    (∀ (S : Nat) (frames : List (List UInt8)), 0 < S →
      (∀ k, k < frames.length → bodySizeSum (frames.take k) < S) →
      (bodySizeSum frames = S →
        (runBodyFrames (.receivingContent queue_name tag S) frames).1 =
          .connected ∧
        completeCount
          (runBodyFrames (.receivingContent queue_name tag S) frames).2 = 1) ∧
      (bodySizeSum frames < S →
        (runBodyFrames (.receivingContent queue_name tag S) frames).1 =
          .receivingContent queue_name tag (S - bodySizeSum frames) ∧
        completeCount
          (runBodyFrames (.receivingContent queue_name tag S) frames).2 = 0)) := by
  constructor
  · intro remaining payload
    constructor
    · intro h
      simp [handle_body_frame, Nat.not_le.mpr h]
    · intro h
      refine ⟨by simp [handle_body_frame, h], ?_, ?_⟩
      · intro he
        simp [handle_body_frame, h, he]
      · intro hlt
        simp [handle_body_frame, h, Nat.ne_of_gt hlt]
  · intro S frames hS hpre
    exact runBodyFrames_progress queue_name tag frames S hS hpre

/-- Witness for C5: a 3-byte delivery received as chunks of 2 and 1 bytes
completes; an oversized 4-byte frame with 3 bytes remaining errors; a single
2-byte frame leaves 1 byte remaining. -/
theorem handle_body_frame_spec_witness :
    handle_body_frame (.receivingContent (some "q") none 3) [0, 1, 2, 3] =
      set_error_outcome ∧
    (runBodyFrames (.receivingContent (some "q") none 3)
        [[0, 1], [2]]).1 = .connected ∧
    completeCount (runBodyFrames (.receivingContent (some "q") none 3)
        [[0, 1], [2]]).2 = 1 ∧
    (runBodyFrames (.receivingContent (some "q") none 3) [[0, 1]]).1 =
      .receivingContent (some "q") none 1 := by
  refine ⟨?_, ?_, ?_, ?_⟩
  · exact ((handle_body_frame_spec (some "q") none).1 3 [0, 1, 2, 3]).1
      (by decide)
  · exact (((handle_body_frame_spec (some "q") none).2 3 [[0, 1], [2]]
      (by decide) (by decide)).1 (by simp [bodySizeSum])).1
  · exact (((handle_body_frame_spec (some "q") none).2 3 [[0, 1], [2]]
      (by decide) (by decide)).1 (by simp [bodySizeSum])).2
  · have h := (((handle_body_frame_spec (some "q") none).2 3 [[0, 1]]
      (by decide) (by decide)).2 (by simp [bodySizeSum])).1
    simpa [bodySizeSum] using h

/-- C10: a content header frame in any state other than WillReceiveContent,
and a body frame in any state other than ReceivingContent, set the channel
state to Error and remove the channel from the connection, returning Ok to
the dispatcher rather than a distinct InvalidChannelState error. -/
theorem content_frame_wrong_state_spec (st : ChannelState) (size : Nat)
    (props : BasicProperties) (payload : List UInt8) :
    ((∀ queue_name tag, st ≠ .willReceiveContent queue_name tag) →
      handle_content_header_frame st size props = set_error_outcome ∧
      (handle_content_header_frame st size props).state = .error ∧
      (handle_content_header_frame st size props).removedFromConnection =
        true ∧
      (handle_content_header_frame st size props).result = .ok ()) ∧
    ((∀ queue_name tag remaining,
        st ≠ .receivingContent queue_name tag remaining) →
      handle_body_frame st payload = set_error_outcome ∧
      (handle_body_frame st payload).state = .error ∧
      (handle_body_frame st payload).removedFromConnection = true ∧
      (handle_body_frame st payload).result = .ok ()) := by
  constructor
  · intro h
    have he : handle_content_header_frame st size props = set_error_outcome := by
      cases st with
      | willReceiveContent q t => exact absurd rfl (h q t)
      | _ => rfl
    exact ⟨he, by rw [he]; rfl, by rw [he]; rfl, by rw [he]; rfl⟩
  · intro h
    have he : handle_body_frame st payload = set_error_outcome := by
      cases st with
      | receivingContent q t r => exact absurd rfl (h q t r)
      | _ => rfl
    exact ⟨he, by rw [he]; rfl, by rw [he]; rfl, by rw [he]; rfl⟩

/-- Witness for C10 in the Connected state. -/
theorem content_frame_wrong_state_spec_witness :
    handle_content_header_frame .connected 7 ⟨0⟩ = set_error_outcome ∧
    handle_body_frame .connected [1, 2] = set_error_outcome := by
  constructor
  · exact ((content_frame_wrong_state_spec .connected 7 ⟨0⟩ [1, 2]).1
      (by intro q t h; cases h)).1
  · exact ((content_frame_wrong_state_spec .connected 7 ⟨0⟩ [1, 2]).2
      (by intro q t r h; cases h)).1

/-! ## Content framing on send (src/channel.rs, send_content_frames) -/

/-- Frame priorities of the outbound queue. -/
inductive Priority where
  | low
  | high
deriving DecidableEq, Repr

/-- The AMQP content header payload built by send_content_frames. -/
structure AMQPContentHeader where
  class_id   : Nat
  weight     : Nat
  body_size  : Nat
  properties : BasicProperties
deriving DecidableEq, Repr

/-- The AMQP frame variants the embedded code sends. -/
inductive AMQPFrame where
  | methodF (channel : Nat) (class_id method_id : Nat)
  | header (channel : Nat) (class_id : Nat) (content : AMQPContentHeader)
  | body (channel : Nat) (payload : List UInt8)
  | heartbeat (channel : Nat)
deriving DecidableEq, Repr

/-- Rust slice::chunks: split a list into consecutive chunks of n elements,
the last chunk possibly shorter; n = 0 is outside the domain (slice::chunks
panics) and yields [] here, callers guard it. -/
def chunks (n : Nat) (l : List UInt8) : List (List UInt8) :=
  if h : n = 0 ∨ l = [] then [] else
    l.take n :: chunks n (l.drop n)
termination_by l.length
decreasing_by
  push_neg at h
  simp only [List.length_drop]
  have : l.length ≠ 0 := by
    simpa [List.length_eq_zero] using h.2
  omega

theorem chunks_nil (n : Nat) : chunks n [] = [] := by
  rw [chunks]
  simp

theorem chunks_cons (n : Nat) (l : List UInt8) (hn : 0 < n) (hl : l ≠ []) :
    chunks n l = l.take n :: chunks n (l.drop n) := by
  rw [chunks]
  simp [hl, Nat.pos_iff_ne_zero.mp hn]

/-- The chunks of a list concatenate back to the list. -/
theorem chunks_join (n : Nat) (hn : 0 < n) :
    ∀ (k : Nat) (l : List UInt8), l.length ≤ k → (chunks n l).flatten = l := by
  intro k
  induction k with
  | zero =>
    intro l hl
    have : l = [] := by
      cases l with
      | nil => rfl
      | cons a as => simp at hl
    subst this
    simp [chunks_nil]
  | succ k ih =>
    intro l hl
    by_cases he : l = []
    · subst he
      simp [chunks_nil]
    · rw [chunks_cons n l hn he]
      have hlen : (l.drop n).length ≤ k := by
        have : l.length ≠ 0 := by simpa [List.length_eq_zero] using he
        simp only [List.length_drop]
        omega
      simp [ih (l.drop n) hlen]

/-- Every chunk has at most n elements. -/
theorem chunks_length_le (n : Nat) (hn : 0 < n) :
    ∀ (k : Nat) (l : List UInt8), l.length ≤ k →
    ∀ c ∈ chunks n l, c.length ≤ n := by
  intro k
  induction k with
  | zero =>
    intro l hl c hc
    have : l = [] := by
      cases l with
      | nil => rfl
      | cons a as => simp at hl
    subst this
    simp [chunks_nil] at hc
  | succ k ih =>
    intro l hl c hc
    by_cases he : l = []
    · subst he
      simp [chunks_nil] at hc
    · rw [chunks_cons n l hn he] at hc
      simp only [List.mem_cons] at hc
      rcases hc with hc | hc
      · subst hc
        simp
      · have hlen : (l.drop n).length ≤ k := by
          have : l.length ≠ 0 := by simpa [List.length_eq_zero] using he
          simp only [List.length_drop]
          omega
        exact ih (l.drop n) hlen c hc

/-- The number of chunks is the length divided by n, rounded up. -/
theorem chunks_count (n : Nat) (hn : 0 < n) :
    ∀ (k : Nat) (l : List UInt8), l.length ≤ k →
    (chunks n l).length = (l.length + n - 1) / n := by
  intro k
  induction k with
  | zero =>
    intro l hl
    have : l = [] := by
      cases l with
      | nil => rfl
      | cons a as => simp at hl
    subst this
    simp [chunks_nil]
    rw [Nat.div_eq_of_lt (by omega)]
  | succ k ih =>
    intro l hl
    by_cases he : l = []
    · subst he
      simp [chunks_nil]
      rw [Nat.div_eq_of_lt (by omega)]
    · rw [chunks_cons n l hn he]
      have hne : l.length ≠ 0 := by simpa [List.length_eq_zero] using he
      have hlen : (l.drop n).length ≤ k := by
        simp only [List.length_drop]
        omega
      rw [List.length_cons, ih (l.drop n) hlen]
      simp only [List.length_drop]
      have hR : l.length + n - 1 = (l.length - 1) + n := by omega
      rw [hR, Nat.add_div_right _ hn]
      rcases Nat.le_total n l.length with hc | hc
      · have h1 : l.length - n + n - 1 = l.length - 1 := by omega
        rw [h1]
      · have h1 : l.length - n + n - 1 = n - 1 := by omega
        rw [h1, Nat.div_eq_of_lt (by omega), Nat.div_eq_of_lt (by omega)]

/-- Translation of Channel::send_content_frames: enqueue on LOW priority the
content header frame {class_id, weight = 0, body_size = payload length,
properties}, then each chunk of at most frame_max - 8 bytes of the payload as
a body frame, in order. frame_max ≤ 8 is outside the domain: the chunk size
frame_max - 8 would be 0 (for frame_max < 8 the Rust usize subtraction
already underflows) and slice::chunks panics on 0, modelled as none. -/
def send_content_frames (channel_id frame_max class_id : Nat)
    (slice : List UInt8) (properties : BasicProperties) :
    Option (List (Priority × AMQPFrame)) :=
  if frame_max ≤ 8 then none
  else some
    ((Priority.low,
        AMQPFrame.header channel_id class_id
          ⟨class_id, 0, slice.length, properties⟩) ::
      (chunks (frame_max - 8) slice).map
        (fun c => (Priority.low, AMQPFrame.body channel_id c)))

/-- C7: publishing a payload of length L with properties P enqueues on LOW
priority exactly one header frame {class_id, weight = 0, body_size = L,
properties = P} followed by body frames whose payloads partition the payload
in order, each of size at most frame_max - 8. -/
theorem send_content_frames_spec (channel_id frame_max class_id : Nat)
    (slice : List UInt8) (properties : BasicProperties)
    (h : 8 < frame_max) :
    ∃ bodies : List (List UInt8),
      send_content_frames channel_id frame_max class_id slice properties =
        some ((Priority.low,
            AMQPFrame.header channel_id class_id
              ⟨class_id, 0, slice.length, properties⟩) ::
          bodies.map (fun c => (Priority.low, AMQPFrame.body channel_id c))) ∧
      bodies.flatten = slice ∧
      ∀ c ∈ bodies, c.length ≤ frame_max - 8 := by
  refine ⟨chunks (frame_max - 8) slice, ?_, ?_, ?_⟩
  · simp [send_content_frames, Nat.not_le.mpr h]
  · exact chunks_join (frame_max - 8) (by omega) slice.length slice le_rfl
  · exact chunks_length_le (frame_max - 8) (by omega) slice.length slice le_rfl

/-- Witness for C7: a 5-byte payload with frame_max 10 splits into chunks of
2, 2 and 1 bytes. -/
theorem send_content_frames_spec_witness :
    ∃ bodies : List (List UInt8),
      send_content_frames 1 10 60 [10, 11, 12, 13, 14] ⟨0⟩ =
        some ((Priority.low,
            AMQPFrame.header 1 60 ⟨60, 0, 5, ⟨0⟩⟩) ::
          bodies.map (fun c => (Priority.low, AMQPFrame.body 1 c))) ∧
      bodies.flatten = [10, 11, 12, 13, 14] ∧
      ∀ c ∈ bodies, c.length ≤ 10 - 8 :=
  send_content_frames_spec 1 10 60 [10, 11, 12, 13, 14] ⟨0⟩ (by decide)

/-- C9: send_content_frames is only defined for frame_max > 8 (otherwise the
chunk size would be 0 and the Rust code panics); in its domain it enqueues
exactly ceil(L / (frame_max - 8)) body frames after the header, and an empty
payload yields a header with body_size 0 and no body frame. -/
theorem send_content_frames_count_spec (channel_id frame_max class_id : Nat)
    (slice : List UInt8) (properties : BasicProperties) :
    (frame_max ≤ 8 →
      send_content_frames channel_id frame_max class_id slice properties =
        none) ∧
    (8 < frame_max →
      ∃ frames,
        send_content_frames channel_id frame_max class_id slice properties =
          some frames ∧
        frames.length =
          1 + (slice.length + (frame_max - 8) - 1) / (frame_max - 8) ∧
        (slice = [] →
          frames = [(Priority.low,
            AMQPFrame.header channel_id class_id
              ⟨class_id, 0, 0, properties⟩)])) := by
  constructor
  · intro h
    simp [send_content_frames, h]
  · intro h
    refine ⟨(Priority.low,
        AMQPFrame.header channel_id class_id
          ⟨class_id, 0, slice.length, properties⟩) ::
      (chunks (frame_max - 8) slice).map
        (fun c => (Priority.low, AMQPFrame.body channel_id c)), ?_, ?_, ?_⟩
    · simp [send_content_frames, Nat.not_le.mpr h]
    · simp only [List.length_cons, List.length_map]
      rw [chunks_count (frame_max - 8) (by omega) slice.length slice le_rfl]
      omega
    · intro he
      subst he
      simp [chunks_nil]

/-- Witness for C9 at frame_max 8 (outside the domain), and at frame_max 12
with a 9-byte payload (3 body frames) and with an empty payload. -/
theorem send_content_frames_count_spec_witness :
    send_content_frames 1 8 60 [1, 2, 3] ⟨0⟩ = none ∧
    (∃ frames,
      send_content_frames 1 12 60 [1, 2, 3, 4, 5, 6, 7, 8, 9] ⟨0⟩ =
        some frames ∧
      frames.length = 1 + (9 + (12 - 8) - 1) / (12 - 8) ∧
      ([1, 2, 3, 4, 5, 6, 7, 8, 9] = ([] : List UInt8) →
        frames = [(Priority.low, AMQPFrame.header 1 60 ⟨60, 0, 0, ⟨0⟩⟩)])) ∧
    (∃ frames,
      send_content_frames 1 12 60 [] ⟨0⟩ = some frames ∧
      frames.length = 1 + (0 + (12 - 8) - 1) / (12 - 8) ∧
      (([] : List UInt8) = [] →
        frames = [(Priority.low, AMQPFrame.header 1 60 ⟨60, 0, 0, ⟨0⟩⟩)])) := by
  refine ⟨?_, ?_, ?_⟩
  · exact (send_content_frames_count_spec 1 8 60 [1, 2, 3] ⟨0⟩).1 (by decide)
  · have h := (send_content_frames_count_spec 1 12 60
      [1, 2, 3, 4, 5, 6, 7, 8, 9] ⟨0⟩).2 (by decide)
    simpa using h
  · exact (send_content_frames_count_spec 1 12 60 [] ⟨0⟩).2 (by decide)

/-! ## I/O loop serializer (src/io_loop.rs, IoLoop::serialize) -/

/-- Observable effects of one IoLoop::serialize call: which send id was
marked sent, which frame was requeued under its send id
(Connection::requeue_frame, not among the sources, modelled from the spec as
putting the frame back under that id), how many bytes were filled into the
send buffer, whether the send buffer was shifted (compacted), whether the
connection was set to Error, whether has_data was cleared, and the returned
value. -/
structure SerializeOutcome where
  markedSent         : Option Nat
  requeued           : Option (Nat × AMQPFrame)
  bufferFilled       : Option Nat
  bufferShifted      : Bool
  connectionSetError : Bool
  hasDataCleared     : Bool
  result             : Except ErrorKind Unit
deriving Repr

/-- Translation of IoLoop::serialize, parameterized by the next queued frame
(Connection::next_frame) and by the external codec gen_frame acting on the
current send-buffer space, which returns the generated size or a GenError. -/
def serialize (next : Option (Nat × AMQPFrame))
    (gen : AMQPFrame → Except GenError Nat) : SerializeOutcome :=
  match next with
  | none =>
    { markedSent := none, requeued := none, bufferFilled := none,
      bufferShifted := false, connectionSetError := false,
      hasDataCleared := true, result := .ok () }
  | some (send_id, next_msg) =>
    match gen next_msg with
    | .ok sz =>
      { markedSent := some send_id, requeued := none, bufferFilled := some sz,
        bufferShifted := false, connectionSetError := false,
        hasDataCleared := false, result := .ok () }
    | .error (.bufferTooSmall n) =>
      { markedSent := none, requeued := some (send_id, next_msg),
        bufferFilled := none, bufferShifted := true,
        connectionSetError := false, hasDataCleared := false,
        result := .ok () }
    | .error e =>
      { markedSent := none, requeued := none, bufferFilled := none,
        bufferShifted := false, connectionSetError := true,
        hasDataCleared := false, result := .error (.serialisationError e) }

/-- C8: a buffer-too-small report from the codec is not an error: the frame
is requeued under its send id, the send buffer is shifted, and Ok is
returned; any other generation failure sets the connection to Error and
returns a SerialisationError; a successfully generated frame is marked
sent. -/
theorem serialize_spec (gen : AMQPFrame → Except GenError Nat)
    (send_id : Nat) (msg : AMQPFrame) :
    (∀ n, gen msg = .error (.bufferTooSmall n) →
      serialize (some (send_id, msg)) gen =
        { markedSent := none, requeued := some (send_id, msg),
          bufferFilled := none, bufferShifted := true,
          connectionSetError := false, hasDataCleared := false,
          result := .ok () }) ∧
    (∀ e, gen msg = .error e → (∀ n, e ≠ .bufferTooSmall n) →
      serialize (some (send_id, msg)) gen =
        { markedSent := none, requeued := none, bufferFilled := none,
          bufferShifted := false, connectionSetError := true,
          hasDataCleared := false,
          result := .error (.serialisationError e) }) ∧
    (∀ sz, gen msg = .ok sz →
      serialize (some (send_id, msg)) gen =
        { markedSent := some send_id, requeued := none,
          bufferFilled := some sz, bufferShifted := false,
          connectionSetError := false, hasDataCleared := false,
          result := .ok () }) := by
  refine ⟨?_, ?_, ?_⟩
  · intro n h
    simp [serialize, h]
  · intro e h hne
    cases e with
    | bufferTooSmall n => exact absurd rfl (hne n)
    | invalidOffset => simp [serialize, h]
    | customError c => simp [serialize, h]
    | notYetImplemented => simp [serialize, h]
  · intro sz h
    simp [serialize, h]

/-- Witness for C8: the three codec outcomes on a concrete heartbeat frame. -/
theorem serialize_spec_witness :
    serialize (some (5, .heartbeat 0)) (fun _ => .error (.bufferTooSmall 64)) =
      { markedSent := none, requeued := some (5, .heartbeat 0),
        bufferFilled := none, bufferShifted := true,
        connectionSetError := false, hasDataCleared := false,
        result := .ok () } ∧
    serialize (some (5, .heartbeat 0)) (fun _ => .error .invalidOffset) =
      { markedSent := none, requeued := none, bufferFilled := none,
        bufferShifted := false, connectionSetError := true,
        hasDataCleared := false,
        result := .error (.serialisationError .invalidOffset) } ∧
    serialize (some (5, .heartbeat 0)) (fun _ => .ok 8) =
      { markedSent := some 5, requeued := none, bufferFilled := some 8,
        bufferShifted := false, connectionSetError := false,
        hasDataCleared := false, result := .ok () } := by
  refine ⟨?_, ?_, ?_⟩
  · exact (serialize_spec (fun _ => .error (.bufferTooSmall 64)) 5
      (.heartbeat 0)).1 64 rfl
  · exact (serialize_spec (fun _ => .error .invalidOffset) 5
      (.heartbeat 0)).2.1 .invalidOffset rfl (by intro n h; cases h)
  · exact (serialize_spec (fun _ => .ok 8) 5 (.heartbeat 0)).2.2 8 rfl

end Lapin
